import Mathlib

/-!
Verification of the day5 retailer back-office core: the order-placement
workflow (`OrderUseCase.PlaceOrder` / `executeOrderTransaction`), the
cooldown gate (`models.CustomerCooldown`, `CustomerUseCase`), and the
inventory entities/repositories, shallowly embedded from the Go source.

Conventions of the embedding:
- wall-clock instants and durations are `Int` nanoseconds (Go `time.Time`
  since the epoch / `time.Duration`); the Go zero time is `0`;
- money (`float64` in Go) is `ℚ`;
- Go `int` quantities are `Int`;
- fallible Go functions return `Except`;
- the four persistent stores (products, orders, transactions, cooldowns)
  are association lists inside a `Store` record; each repository call is a
  function on `Store`;
- failures of the infrastructure layer (GORM/DB errors) are injected
  through a `Faults` record: each flag makes the corresponding repository
  call return an error, exactly at the point the Go code checks `err`.
-/

namespace Day5

/-- 5 minutes in nanoseconds: `models.CooldownPeriod = 5 * time.Minute`. -/
def CooldownPeriod : Int := 5 * 60 * 1000000000

/-- One millisecond in nanoseconds. -/
def millisecond : Int := 1000000

/-- `models.CustomerCooldown.CanPlaceOrder` (src/internal/models/cooldown.go:20-22):
`time.Since(cc.LastOrderTime) >= CooldownPeriod`, with `time.Since t = now - t`. -/
def CanPlaceOrder (now last : Int) : Bool :=
  decide (CooldownPeriod ≤ now - last)

/-- `models.CustomerCooldown.RemainingCooldown` (src/internal/models/cooldown.go:25-31). -/
def RemainingCooldown (now last : Int) : Int :=
  if CooldownPeriod ≤ now - last then 0 else CooldownPeriod - (now - last)

/-- Domain entity `entities.Product` (src/unnamed/part_025). -/
structure Product where
  id : String
  productName : String
  price : ℚ
  quantity : Int
  createdAt : Int
  updatedAt : Int
deriving DecidableEq

/-- `entities.Product.IsAvailable` (src/unnamed/part_025):
`p.Quantity >= requestedQuantity && requestedQuantity > 0`. -/
def Product.IsAvailable (p : Product) (requestedQuantity : Int) : Bool :=
  decide (requestedQuantity ≤ p.quantity) && decide (0 < requestedQuantity)

/-- Error payload of `entities.Product.ReduceQuantity`:
`"insufficient quantity: available=%d, requested=%d"`. -/
structure InsufficientQuantityError where
  available : Int
  requested : Int
deriving DecidableEq

/-- `entities.Product.ReduceQuantity` (src/unnamed/part_025): fails with the
available/requested amounts unless `IsAvailable`, otherwise subtracts and
bumps `UpdatedAt` to the current time (`now`). -/
def Product.ReduceQuantity (p : Product) (amount now : Int) :
    Except InsufficientQuantityError Product :=
  if !(p.IsAvailable amount) then
    .error ⟨p.quantity, amount⟩
  else
    .ok { p with quantity := p.quantity - amount, updatedAt := now }

/-- Association-list lookup keyed by `String` (a relational table keyed by ID). -/
def lookupBy {β : Type} : List (String × β) → String → Option β
  | [], _ => none
  | (k, v) :: t, key => if key = k then some v else lookupBy t key

/-- Overwrite the row with the given key (GORM `Save` on an existing row). -/
def setBy {β : Type} (l : List (String × β)) (key : String) (nv : β) :
    List (String × β) :=
  l.map fun kv => if kv.1 = key then (key, nv) else kv

/-- Upsert a row by key (GORM `Save`: update if present, insert otherwise). -/
def upsertBy {β : Type} (l : List (String × β)) (key : String) (nv : β) :
    List (String × β) :=
  if (lookupBy l key).isSome then setBy l key nv else (key, nv) :: l

/-- Domain entity `entities.Order` (src/unnamed/part_025). -/
structure Order where
  id : String
  customerID : String
  productID : String
  quantity : Int
  unitPrice : ℚ
  totalAmount : ℚ
  orderDate : Int
  createdAt : Int
  updatedAt : Int
deriving DecidableEq

/-- `entities.Order.CalculateTotal` (src/unnamed/part_025):
`o.TotalAmount = float64(o.Quantity) * o.UnitPrice`. -/
def Order.CalculateTotal (o : Order) : Order :=
  { o with totalAmount := (o.quantity : ℚ) * o.unitPrice }

/-- `entities.Order.SetOrderDate` (src/unnamed/part_025). -/
def Order.SetOrderDate (o : Order) (now : Int) : Order :=
  { o with orderDate := now }

/-- `entities.Order.Validate` (src/unnamed/part_025): non-empty IDs, positive
quantity and unit price, and `|TotalAmount - Quantity*UnitPrice| <= 0.01`. -/
def Order.Validate (o : Order) : Bool :=
  (o.customerID != "") && (o.productID != "") &&
  decide (0 < o.quantity) && decide (0 < o.unitPrice) &&
  decide (|o.totalAmount - (o.quantity : ℚ) * o.unitPrice| ≤ 1 / 100)

/-- Domain entity `entities.Transaction` (src/internal/domain/entities/transaction.go). -/
structure Transaction where
  id : String
  orderID : String
  customerID : String
  productID : String
  txnType : String
  amount : ℚ
  quantity : Int
  unitPrice : ℚ
  description : String
  transactionAt : Int
  createdAt : Int
deriving DecidableEq

/-- `entities.Transaction.CreateFromOrder` (transaction.go:106-117): copies the
order's references and amounts, type `order`, and stamps the current time. -/
def Transaction.CreateFromOrder (id : String) (now : Int) (o : Order) : Transaction :=
  { id := id, orderID := o.id, customerID := o.customerID, productID := o.productID,
    txnType := "order", amount := o.totalAmount, quantity := o.quantity,
    unitPrice := o.unitPrice,
    description := "Order for " ++ toString o.quantity ++ " units",
    transactionAt := now, createdAt := now }

/-- The persistent stores shared by all requests: one relational table per
entity, keyed as in §3 of the data model (products and cooldowns by ID,
customers mapping ID to display name). -/
structure Store where
  products : List (String × Product)
  customers : List (String × String)
  orders : List Order
  transactions : List Transaction
  cooldowns : List (String × Int)
deriving DecidableEq

/-- Infrastructure-failure injection: each flag makes the corresponding
repository call return a non-`RecordNotFound` error (a DB/GORM failure),
at exactly the point the Go code checks `err != nil`. -/
structure Faults where
  customerReadFails : Bool
  productReadFails : Bool
  cooldownReadFails : Bool
  orderCreateFails : Bool
  productUpdateFails : Bool
  transactionCreateFails : Bool
  cooldownUpsertFails : Bool
deriving DecidableEq

/-- The fault-free infrastructure. -/
def noFaults : Faults := ⟨false, false, false, false, false, false, false⟩

/-- The randomly generated IDs (`generateOrderID` / `generateTransactionID`),
passed in as parameters since their values never influence control flow. -/
structure Gen where
  orderID : String
  transactionID : String
deriving DecidableEq

/-- Error outcome of a single repository call. -/
inductive StepErr where
  | notFound
  | readFault
  | badInput
  | insufficient (available requested : Int)
deriving DecidableEq

/-- The commit sub-step whose failure aborted `executeOrderTransaction`;
each maps to one of the source's distinct `fmt.Errorf` wrap messages. -/
inductive CommitStep where
  | reduceQuantity
  | createOrder
  | updateProduct
  | createTransaction
  | updateCooldown
deriving DecidableEq

/-- The errors `OrderUseCase.PlaceOrder` can return, tagged by the step whose
`fmt.Errorf` wrapping produced them (the tag is the wrap context). -/
inductive PlaceOrderError where
  | cooldownCheck (e : StepErr)
  | cooldownActive (remaining : Int)
  | productCheck (e : StepErr)
  | getCustomer (e : StepErr)
  | validationFailed
  | commitFailed (step : CommitStep)
deriving DecidableEq

/-- `CustomerRepositoryImpl.GetByID`: the stored display name, or an error
(absent row, or an injected infrastructure failure). -/
def customerGetByID (s : Store) (f : Faults) (id : String) : Except StepErr String :=
  if f.customerReadFails then .error .readFault
  else
    match lookupBy s.customers id with
    | some name => .ok name
    | none => .error .notFound

/-- `ProductRepositoryImpl.GetByID`. -/
def productGetByID (s : Store) (f : Faults) (id : String) : Except StepErr Product :=
  if f.productReadFails then .error .readFault
  else
    match lookupBy s.products id with
    | some p => .ok p
    | none => .error .notFound

/-- `CustomerCooldownRepositoryImpl.GetByCustomerID` (src/unnamed/part_023:202-217):
the stored last-order time, or an error (absent row or infrastructure failure). -/
def cooldownGetByCustomerID (s : Store) (f : Faults) (id : String) : Except StepErr Int :=
  if f.cooldownReadFails then .error .readFault
  else
    match lookupBy s.cooldowns id with
    | some t => .ok t
    | none => .error .notFound

/-- A loaded (or freshly constructed) `entities.CustomerCooldown`. -/
structure CooldownRec where
  customerID : String
  lastOrderTime : Int
deriving DecidableEq

/-- `CustomerUseCase.CheckCustomerCooldown` (customer_usecase.go:110-131).
Note: the source maps EVERY error from the cooldown repository — not just
record-not-found — to a fresh record with a zero `LastOrderTime`
("No cooldown record means customer can order"). -/
def CheckCustomerCooldown (s : Store) (f : Faults) (customerID : String) :
    Except PlaceOrderError CooldownRec :=
  if customerID = "" then .error (.cooldownCheck .badInput)
  else
    match customerGetByID s f customerID with
    | .error e => .error (.cooldownCheck e)
    | .ok _ =>
      match cooldownGetByCustomerID s f customerID with
      | .error _ => .ok ⟨customerID, 0⟩
      | .ok t => .ok ⟨customerID, t⟩

/-- Modelled from the spec: `entities.CustomerCooldown.CanPlaceOrder(period)` is
not under src/ (only its callers in `customer_usecase.go` are); §4.3 says
"true if `cooldown` is absent/zero, or `now - LastOrderTime >= period`".
A zero/unset `LastOrderTime` (the Go zero time) is `0` here; absence is
already mapped to a zero record by `CheckCustomerCooldown`. -/
def entityCanPlaceOrder (now last period : Int) : Bool :=
  decide (last = 0) || decide (period ≤ now - last)

/-- Modelled from the spec: `entities.CustomerCooldown.RemainingCooldown(period)`
is not under src/; §4.3 says "`period - elapsed`, clamped to zero" (the
in-scope `models.CustomerCooldown.RemainingCooldown` has the same shape). -/
def entityRemainingCooldown (now last period : Int) : Int :=
  if period ≤ now - last then 0 else period - (now - last)

/-- `CustomerUseCase.CanCustomerPlaceOrder` (customer_usecase.go:134-142). -/
def CanCustomerPlaceOrder (s : Store) (f : Faults) (customerID : String)
    (now period : Int) : Except PlaceOrderError (Bool × CooldownRec) :=
  match CheckCustomerCooldown s f customerID with
  | .error e => .error e
  | .ok cd => .ok (entityCanPlaceOrder now cd.lastOrderTime period, cd)

/-- `ProductUseCase.CheckProductAvailability` (product_usecase.go:149-162). -/
def CheckProductAvailability (s : Store) (f : Faults) (productID : String)
    (requestedQuantity : Int) : Except PlaceOrderError Product :=
  match productGetByID s f productID with
  | .error e => .error (.productCheck e)
  | .ok p =>
    if !(p.IsAvailable requestedQuantity) then
      .error (.productCheck (.insufficient p.quantity requestedQuantity))
    else .ok p

/-- `CustomerUseCase.GetCustomer` (customer_usecase.go:78-89). -/
def GetCustomer (s : Store) (f : Faults) (id : String) : Except PlaceOrderError String :=
  if id = "" then .error (.getCustomer .badInput)
  else
    match customerGetByID s f id with
    | .error e => .error (.getCustomer e)
    | .ok name => .ok name

/-- `usecases.PlaceOrderRequest` (order_usecase.go:38-42). -/
structure PlaceOrderRequest where
  customerID : String
  productID : String
  quantity : Int
deriving DecidableEq

/-- `OrderUseCase.executeOrderTransaction` (order_usecase.go:136-177). The
source comment reads "This should be wrapped in a database transaction /
For now, we'll handle the sequence manually": the five sub-steps run one
after another with no enclosing transaction, so every write that happened
before a failing sub-step stays visible; the embedding reproduces this by
threading the store through the sequence and returning it as-is on error.
Step order in the source: (1) `product.ReduceQuantity` on the in-memory
snapshot, (2) `orderRepo.Create`, (3) `productRepo.Update` (an unconditional
`Save` of the snapshot, order_repository_impl.go:387-398), (4)
`transactionRepo.Create`, (5) `UpdateCustomerCooldown` (upsert to now). -/
def executeOrderTransaction (s : Store) (f : Faults) (g : Gen) (order : Order)
    (product : Product) (quantity now : Int) : Store × Except PlaceOrderError Unit :=
  match product.ReduceQuantity quantity now with
  | .error _ => (s, .error (.commitFailed .reduceQuantity))
  | .ok reduced =>
    if f.orderCreateFails then (s, .error (.commitFailed .createOrder))
    else
      let s1 : Store := { s with orders := order :: s.orders }
      if f.productUpdateFails then (s1, .error (.commitFailed .updateProduct))
      else
        let s2 : Store := { s1 with products := setBy s1.products product.id reduced }
        if f.transactionCreateFails then (s2, .error (.commitFailed .createTransaction))
        else
          let txn := Transaction.CreateFromOrder g.transactionID now order
          let s3 : Store := { s2 with transactions := txn :: s2.transactions }
          if order.customerID = "" || f.cooldownUpsertFails then
            (s3, .error (.commitFailed .updateCooldown))
          else
            ({ s3 with cooldowns := upsertBy s3.cooldowns order.customerID now }, .ok ())

/-- The data steps 1-4 of `OrderUseCase.PlaceOrder` hand to the commit phase:
the validated order, the product snapshot the availability check loaded, and
the customer's display name. -/
structure CheckedOrder where
  order : Order
  product : Product
  customerName : String
deriving DecidableEq

/-- Steps 1-4 of `OrderUseCase.PlaceOrder` (order_usecase.go:59-114): cooldown
gate, availability check, customer resolution, order construction and
validation. These steps only read the stores. -/
def placeOrderChecks (s : Store) (f : Faults) (g : Gen) (now period : Int)
    (req : PlaceOrderRequest) : Except PlaceOrderError CheckedOrder :=
  match CanCustomerPlaceOrder s f req.customerID now period with
  | .error e => .error e
  | .ok (canOrder, cd) =>
    if !canOrder then
      .error (.cooldownActive (entityRemainingCooldown now cd.lastOrderTime period))
    else
      match CheckProductAvailability s f req.productID req.quantity with
      | .error e => .error e
      | .ok product =>
        match GetCustomer s f req.customerID with
        | .error e => .error e
        | .ok customerName =>
          let order : Order :=
            { id := g.orderID, customerID := req.customerID,
              productID := req.productID, quantity := req.quantity,
              unitPrice := product.price, totalAmount := 0,
              orderDate := 0, createdAt := now, updatedAt := now }
          let order := (order.CalculateTotal).SetOrderDate now
          if !order.Validate then .error .validationFailed
          else .ok ⟨order, product, customerName⟩

/-- The response `OrderUseCase.PlaceOrder` builds on success (step 6). -/
structure OrderResponse where
  id : String
  customerID : String
  customerName : String
  productID : String
  productName : String
  quantity : Int
  unitPrice : ℚ
  totalAmount : ℚ
  orderDate : Int
deriving DecidableEq

/-- Step 6 of `OrderUseCase.PlaceOrder`: the success response. -/
def responseOf (c : CheckedOrder) : OrderResponse :=
  { id := c.order.id, customerID := c.order.customerID,
    customerName := c.customerName, productID := c.order.productID,
    productName := c.product.productName, quantity := c.order.quantity,
    unitPrice := c.order.unitPrice, totalAmount := c.order.totalAmount,
    orderDate := c.order.orderDate }

/-- Step 5 of `OrderUseCase.PlaceOrder`: run the commit phase on the current
store and turn its outcome into the caller's response. -/
def placeOrderCommit (s : Store) (f : Faults) (g : Gen) (now : Int)
    (req : PlaceOrderRequest) (c : CheckedOrder) :
    Store × Except PlaceOrderError OrderResponse :=
  match executeOrderTransaction s f g c.order c.product req.quantity now with
  | (s', .error e) => (s', .error e)
  | (s', .ok _) => (s', .ok (responseOf c))

/-- `OrderUseCase.PlaceOrder` (order_usecase.go:59-133): the read-only check
phase followed by the commit phase, returning the possibly mutated store
together with the caller-visible outcome. -/
def PlaceOrder (s : Store) (f : Faults) (g : Gen) (now period : Int)
    (req : PlaceOrderRequest) : Store × Except PlaceOrderError OrderResponse :=
  match placeOrderChecks s f g now period req with
  | .error e => (s, .error e)
  | .ok c => placeOrderCommit s f g now req c

/-- Two placement workers racing: each request is handled by an independent
worker and no lock spans the gap between the check phase and the commit phase
(each repository call locks only itself, and `executeOrderTransaction` opens
no transaction), so the schedule in which both workers finish their read-only
checks against the same initial store before either starts committing is a
legal execution. The commits then run one after the other. -/
def placeOrderRace (s : Store) (f : Faults) (g1 g2 : Gen) (now period : Int)
    (r1 r2 : PlaceOrderRequest) :
    Store × Except PlaceOrderError OrderResponse × Except PlaceOrderError OrderResponse :=
  match placeOrderChecks s f g1 now period r1, placeOrderChecks s f g2 now period r2 with
  | .ok c1, .ok c2 =>
    let p1 := placeOrderCommit s f g1 now r1 c1
    let p2 := placeOrderCommit p1.1 f g2 now r2 c2
    (p2.1, p1.2, p2.2)
  | .ok c1, .error e2 =>
    let p1 := placeOrderCommit s f g1 now r1 c1
    (p1.1, p1.2, .error e2)
  | .error e1, .ok c2 =>
    let p2 := placeOrderCommit s f g2 now r2 c2
    (p2.1, .error e1, p2.2)
  | .error e1, .error e2 => (s, .error e1, .error e2)

/-- `ProductRepositoryImpl.ReduceQuantity` (order_repository_impl.go:473-490):
the storage layer's single conditional update, `UPDATE products SET
quantity = quantity - ? WHERE id = ? AND quantity >= ?`; zero affected rows
(row absent or insufficient stock) is an error and changes nothing. -/
def repoReduceQuantity (s : Store) (productID : String) (quantity : Int) :
    Store × Except StepErr Unit :=
  match lookupBy s.products productID with
  | some p =>
    if quantity ≤ p.quantity then
      let reduced : Product := { p with quantity := p.quantity - quantity }
      ({ s with products := setBy s.products productID reduced }, .ok ())
    else (s, .error (.insufficient p.quantity quantity))
  | none => (s, .error .notFound)

/-- `OrderUseCase.GetOrderHistory` (order_usecase.go:180-204): require a
non-empty, existing customer, then query `orderRepo.GetByCustomerID` with the
normalised pagination arguments. The repository query itself is out-of-scope
plumbing, so the embedding returns the arguments the query is issued with. -/
def GetOrderHistory (s : Store) (f : Faults) (customerID : String)
    (limit offset : Int) : Except PlaceOrderError (String × Int × Int) :=
  if customerID = "" then .error (.getCustomer .badInput)
  else
    match customerGetByID s f customerID with
    | .error e => .error (.getCustomer e)
    | .ok _ =>
      .ok (customerID, if limit ≤ 0 then 50 else limit,
           if offset < 0 then 0 else offset)

/-- `OrderUseCase.GetAllOrders` (order_usecase.go:207-221): the normalised
pagination arguments passed to `orderRepo.GetOrdersWithDetails`. -/
def GetAllOrders (limit offset : Int) : Int × Int :=
  (if limit ≤ 0 then 50 else limit, if offset < 0 then 0 else offset)

/-- The error kinds §4.4 steps 1-3 produce before the commit phase starts:
cooldown active, customer not found, product not found, insufficient
quantity (and their step-1/step-3 wrappings). -/
def PlaceOrderError.isPreCommitRejection : PlaceOrderError → Bool
  | .cooldownActive _ => true
  | .cooldownCheck .notFound => true
  | .cooldownCheck .badInput => true
  | .getCustomer .notFound => true
  | .getCustomer .badInput => true
  | .productCheck .notFound => true
  | .productCheck (.insufficient _ _) => true
  | _ => false

/-- Concrete scenario data (§8: `PROD1` price 10.00 qty 5, fresh customers). -/
def prodA : Product :=
  { id := "PROD10001", productName := "Widget", price := 10, quantity := 5,
    createdAt := 0, updatedAt := 0 }

/-- Initial store: one product, two registered customers, no orders,
transactions or cooldown rows. -/
def storeA : Store :=
  { products := [("PROD10001", prodA)],
    customers := [("CUST10001", "Alice"), ("CUST10002", "Bob")],
    orders := [], transactions := [], cooldowns := [] }

/-- Generated IDs for a first request. -/
def genA : Gen := ⟨"ORD10001", "TXN10001"⟩

/-- Generated IDs for a second request. -/
def genB : Gen := ⟨"ORD10002", "TXN10002"⟩

/-- A concrete wall-clock instant (far past the epoch, as any real clock). -/
def tA : Int := 1000000000000000

/-- CUST1 orders 2 units of PROD1. -/
def reqA : PlaceOrderRequest := ⟨"CUST10001", "PROD10001", 2⟩

/-- CUST1 orders 1 unit of PROD1. -/
def reqA1 : PlaceOrderRequest := ⟨"CUST10001", "PROD10001", 1⟩

/-- CUST1 orders 4 units of PROD1. -/
def reqB1 : PlaceOrderRequest := ⟨"CUST10001", "PROD10001", 4⟩

/-- CUST2 orders 4 units of PROD1. -/
def reqB2 : PlaceOrderRequest := ⟨"CUST10002", "PROD10001", 4⟩

/-- The order `placeOrderChecks` constructs for `reqA` at time `tA`. -/
def orderA : Order :=
  { id := "ORD10001", customerID := "CUST10001", productID := "PROD10001",
    quantity := 2, unitPrice := 10, totalAmount := 20,
    orderDate := tA, createdAt := tA, updatedAt := tA }

/-- Only the transaction-record insert fails (a storage error in commit
sub-step 4). -/
def faultTxn : Faults := ⟨false, false, false, false, false, true, false⟩

/-- Only the cooldown read fails (a storage error, not record-not-found). -/
def faultCooldownRead : Faults := ⟨false, false, true, false, false, false, false⟩

/-- `storeA` with CUST1 having just ordered at `tA` (cooldown running). -/
def storeCD : Store := { storeA with cooldowns := [("CUST10001", tA)] }

/-- Only the customer read fails (a storage error, not record-not-found). -/
def faultCustomerRead : Faults := ⟨true, false, false, false, false, false, false⟩

/-- CUST1 orders 7 units of PROD1 — more than the 5 in stock. -/
def reqBig : PlaceOrderRequest := ⟨"CUST10001", "PROD10001", 7⟩

/-- The audit record the commit writes for `orderA`. -/
def txnA : Transaction :=
  { id := "TXN10001", orderID := "ORD10001", customerID := "CUST10001",
    productID := "PROD10001", txnType := "order", amount := 20, quantity := 2,
    unitPrice := 10, description := "Order for 2 units",
    transactionAt := tA, createdAt := tA }

/-- The response of a successful `reqA` placement. -/
def respA : OrderResponse :=
  { id := "ORD10001", customerID := "CUST10001", customerName := "Alice",
    productID := "PROD10001", productName := "Widget", quantity := 2,
    unitPrice := 10, totalAmount := 20, orderDate := tA }

/-- Response of the first racing `reqA1` request. -/
def respR1 : OrderResponse :=
  { id := "ORD10001", customerID := "CUST10001", customerName := "Alice",
    productID := "PROD10001", productName := "Widget", quantity := 1,
    unitPrice := 10, totalAmount := 10, orderDate := tA }

/-- Response of the second racing `reqA1` request. -/
def respR2 : OrderResponse := { respR1 with id := "ORD10002" }

/-- Response of the racing `reqB1` request (CUST1, 4 units). -/
def respB1 : OrderResponse :=
  { id := "ORD10001", customerID := "CUST10001", customerName := "Alice",
    productID := "PROD10001", productName := "Widget", quantity := 4,
    unitPrice := 10, totalAmount := 40, orderDate := tA }

/-- Response of the racing `reqB2` request (CUST2, 4 units). -/
def respB2 : OrderResponse :=
  { respB1 with id := "ORD10002", customerID := "CUST10002", customerName := "Bob" }

/-- C4: `CanPlaceOrder` is true exactly when the last-order time is zero/unset
or the elapsed time has reached the cooldown period (given a wall clock that
is itself past the period, as any real clock is); it is false at
`elapsed = period - 1ms` and true at `elapsed = period` and
`elapsed = period + 1ms`. -/
theorem cooldown_canPlaceOrder_boundary (now last : Int) :
    (CooldownPeriod ≤ now →
      (CanPlaceOrder now last = true ↔ (last = 0 ∨ CooldownPeriod ≤ now - last))) ∧
    (now - last = CooldownPeriod - millisecond → CanPlaceOrder now last = false) ∧
    (now - last = CooldownPeriod → CanPlaceOrder now last = true) ∧
    (now - last = CooldownPeriod + millisecond → CanPlaceOrder now last = true) := by
  refine ⟨fun hnow => ?_, fun h => ?_, fun h => ?_, fun h => ?_⟩
  · simp only [CanPlaceOrder, decide_eq_true_eq]
    constructor
    · exact fun h => Or.inr h
    · rintro (rfl | h)
      · simpa using hnow
      · exact h
  · simp only [CanPlaceOrder, decide_eq_false_iff_not, not_le, h, CooldownPeriod, millisecond]
    norm_num
  · simp only [CanPlaceOrder, decide_eq_true_eq, h, le_refl]
  · simp only [CanPlaceOrder, decide_eq_true_eq, h, CooldownPeriod, millisecond]
    norm_num

/-- Witness for `cooldown_canPlaceOrder_boundary` at a concrete clock/time. -/
theorem cooldown_canPlaceOrder_boundary_witness :
    CanPlaceOrder (2 * CooldownPeriod) 0 = true ∧
    CanPlaceOrder (2 * CooldownPeriod) (CooldownPeriod + millisecond) = false := by
  refine ⟨?_, ?_⟩
  · exact ((cooldown_canPlaceOrder_boundary (2 * CooldownPeriod) 0).1
      (by norm_num [CooldownPeriod])).2 (Or.inl rfl)
  · exact (cooldown_canPlaceOrder_boundary (2 * CooldownPeriod)
      (CooldownPeriod + millisecond)).2.1 (by ring)

/-- C8: `Product.ReduceQuantity amount` succeeds exactly when
`0 < amount ≤ Quantity`; on success the quantity drops by exactly `amount`
(so it stays non-negative), `UpdatedAt` is set to the mutation time and all
other fields are unchanged; on failure the returned error carries the
available and requested amounts (the product value itself is untouched,
the call returning only the error). -/
theorem product_reduceQuantity_spec (p : Product) (amount now : Int) :
    ((∃ p', p.ReduceQuantity amount now = .ok p') ↔
      (0 < amount ∧ amount ≤ p.quantity)) ∧
    (∀ p', p.ReduceQuantity amount now = .ok p' →
      p'.quantity = p.quantity - amount ∧
      (0 ≤ p.quantity - amount → 0 ≤ p'.quantity) ∧
      p'.updatedAt = now ∧
      p'.id = p.id ∧ p'.productName = p.productName ∧ p'.price = p.price) ∧
    (∀ e, p.ReduceQuantity amount now = .error e →
      e.available = p.quantity ∧ e.requested = amount) := by
  unfold Product.ReduceQuantity Product.IsAvailable
  by_cases h1 : amount ≤ p.quantity <;> by_cases h2 : 0 < amount <;>
    simp [h1, h2]

/-- Witness for `product_reduceQuantity_spec`: reducing a 5-unit product by 2
succeeds and leaves 3 units. -/
theorem product_reduceQuantity_spec_witness :
    ∃ p', (Product.mk "PROD10001" "Widget" 10 5 0 0).ReduceQuantity 2 7 = .ok p' ∧
      p'.quantity = 3 :=
  match hok : (Product.mk "PROD10001" "Widget" 10 5 0 0).ReduceQuantity 2 7 with
  | .ok q => by
    refine ⟨q, rfl, ?_⟩
    have h := ((product_reduceQuantity_spec
      (Product.mk "PROD10001" "Widget" 10 5 0 0) 2 7).2.1 q hok).1
    simpa using h
  | .error e => by
    have h := (product_reduceQuantity_spec
      (Product.mk "PROD10001" "Widget" 10 5 0 0) 2 7).1
    rw [hok] at h
    simp at h


/-- Helper: every error of the commit phase is a `commitFailed`, and the commit
phase never touches the cooldown table except as its final step: an error
leaves `cooldowns` as it was, success upserts the order's customer to `now`. -/
theorem executeOrderTransaction_cooldowns (s : Store) (f : Faults) (g : Gen)
    (order : Order) (product : Product) (quantity now : Int) :
    (∀ e, (executeOrderTransaction s f g order product quantity now).2 = .error e →
      (∃ st, e = .commitFailed st) ∧
      (executeOrderTransaction s f g order product quantity now).1.cooldowns =
        s.cooldowns) ∧
    (∀ u, (executeOrderTransaction s f g order product quantity now).2 = .ok u →
      (executeOrderTransaction s f g order product quantity now).1.cooldowns =
        upsertBy s.cooldowns order.customerID now) := by
  unfold executeOrderTransaction
  cases hr : product.ReduceQuantity quantity now with
  | error e => simp
  | ok reduced =>
    by_cases h1 : f.orderCreateFails <;> simp [h1]
    by_cases h2 : f.productUpdateFails <;> simp [h2]
    by_cases h3 : f.transactionCreateFails <;> simp [h3]
    by_cases h4 : order.customerID = "" <;> by_cases h5 : f.cooldownUpsertFails <;>
      simp [h4, h5]

/-- Helper: a successful check phase hands the commit phase an order built by
steps 1-4: quantity and IDs copied from the request, unit price snapshotted
from the loaded product, total computed as quantity times unit price, and the
validation predicate true; the product snapshot is the one the availability
check returned. -/
theorem placeOrderChecks_ok_shape (s : Store) (f : Faults) (g : Gen)
    (now period : Int) (req : PlaceOrderRequest) (c : CheckedOrder) :
    placeOrderChecks s f g now period req = .ok c →
      c.order.quantity = req.quantity ∧
      c.order.customerID = req.customerID ∧
      c.order.productID = req.productID ∧
      c.order.unitPrice = c.product.price ∧
      c.order.totalAmount = (c.order.quantity : ℚ) * c.order.unitPrice ∧
      c.order.Validate = true ∧
      CheckProductAvailability s f req.productID req.quantity = .ok c.product := by
  unfold placeOrderChecks
  cases hc : CanCustomerPlaceOrder s f req.customerID now period with
  | error e => simp
  | ok pr =>
    simp only
    by_cases hco : pr.1 = false
    · simp [hco]
    · simp only [hco, Bool.not_eq_false, if_neg, Bool.not_true]
      cases hp : CheckProductAvailability s f req.productID req.quantity with
      | error e => simp
      | ok product =>
        simp only
        cases hg : GetCustomer s f req.customerID with
        | error e => simp
        | ok name =>
          simp only [Order.CalculateTotal, Order.SetOrderDate]
          by_cases hv : (Order.mk g.orderID req.customerID req.productID
              req.quantity product.price ((req.quantity : ℚ) * product.price)
              now now now).Validate
          · intro h
            simp [hv] at h
            subst h
            simp [hv, hp]
          · simp [hv]

/-- Helper: a successful availability check returns exactly the product the
repository loaded, and that product passed `IsAvailable`. -/
theorem checkProductAvailability_ok (s : Store) (f : Faults) (pid : String)
    (q : Int) (p : Product) :
    CheckProductAvailability s f pid q = .ok p →
      productGetByID s f pid = .ok p ∧ p.IsAvailable q = true := by
  unfold CheckProductAvailability
  cases hg : productGetByID s f pid with
  | error e => simp
  | ok q' =>
    by_cases ha : q'.IsAvailable q <;> simp [ha]
    intro h
    subst h
    exact ⟨rfl, ha⟩

/-- C5: the cooldown timestamp is written only as the final step of a fully
successful placement: whenever `PlaceOrder` returns an error — at any step,
pre-commit or mid-commit — the cooldown table is exactly what it was, and on
success it is exactly the old table with the requesting customer upserted to
the order time (one write). -/
theorem placeOrder_cooldown_written_only_on_success (s : Store) (f : Faults)
    (g : Gen) (now period : Int) (req : PlaceOrderRequest) :
    (∀ e, (PlaceOrder s f g now period req).2 = .error e →
      (PlaceOrder s f g now period req).1.cooldowns = s.cooldowns) ∧
    (∀ r, (PlaceOrder s f g now period req).2 = .ok r →
      (PlaceOrder s f g now period req).1.cooldowns =
        upsertBy s.cooldowns req.customerID now) := by
  unfold PlaceOrder
  cases hk : placeOrderChecks s f g now period req with
  | error e => simp
  | ok c =>
    have hcust : c.order.customerID = req.customerID :=
      (placeOrderChecks_ok_shape s f g now period req c hk).2.1
    have hcool := executeOrderTransaction_cooldowns s f g c.order c.product
      req.quantity now
    simp only [placeOrderCommit]
    cases he : executeOrderTransaction s f g c.order c.product req.quantity now with
    | mk t res =>
      rw [he] at hcool
      cases res with
      | error e2 =>
        refine ⟨fun e h => ?_, fun r h => by simp at h⟩
        exact (hcool.1 e2 rfl).2
      | ok u =>
        refine ⟨fun e h => by simp at h, fun r h => ?_⟩
        have := hcool.2 u rfl
        rwa [hcust] at this

/-- C9: a rejection produced before the commit phase — cooldown active,
customer not found / bad customer ID, product not found, or insufficient
quantity — leaves the whole store (products, orders, transactions, cooldowns)
exactly as it was. -/
theorem placeOrder_preCommit_rejection_no_writes (s : Store) (f : Faults)
    (g : Gen) (now period : Int) (req : PlaceOrderRequest) (e : PlaceOrderError) :
    (PlaceOrder s f g now period req).2 = .error e →
    e.isPreCommitRejection = true →
    (PlaceOrder s f g now period req).1 = s := by
  unfold PlaceOrder
  cases hk : placeOrderChecks s f g now period req with
  | error e2 => intro _ _; rfl
  | ok c =>
    simp only [placeOrderCommit]
    cases he : executeOrderTransaction s f g c.order c.product req.quantity now with
    | mk t res =>
      cases res with
      | error e2 =>
        intro h hpre
        simp only [Except.error.injEq] at h
        subst h
        obtain ⟨⟨st, hst⟩, -⟩ :=
          (executeOrderTransaction_cooldowns s f g c.order c.product
            req.quantity now).1 e2 (by rw [he])
        subst hst
        simp [PlaceOrderError.isPreCommitRejection] at hpre
      | ok u => intro h; simp at h

/-- C7: every successful placement returns a response whose total amount is
exactly quantity times unit price (hence within the 0.01 tolerance), with a
positive quantity (the requested one) and a positive unit price snapshotted
from the product the availability check loaded. -/
theorem placeOrder_totalAmount_invariant (s : Store) (f : Faults) (g : Gen)
    (now period : Int) (req : PlaceOrderRequest) (r : OrderResponse) :
    (PlaceOrder s f g now period req).2 = .ok r →
      r.totalAmount = (r.quantity : ℚ) * r.unitPrice ∧
      |r.totalAmount - (r.quantity : ℚ) * r.unitPrice| ≤ 1 / 100 ∧
      0 < r.quantity ∧ 0 < r.unitPrice ∧
      r.quantity = req.quantity ∧
      (∃ p, productGetByID s f req.productID = .ok p ∧ r.unitPrice = p.price) := by
  unfold PlaceOrder
  cases hk : placeOrderChecks s f g now period req with
  | error e => intro h; simp at h
  | ok c =>
    have hshape := placeOrderChecks_ok_shape s f g now period req c hk
    simp only [placeOrderCommit]
    cases he : executeOrderTransaction s f g c.order c.product req.quantity now with
    | mk t res =>
      cases res with
      | error e => intro h; simp at h
      | ok u =>
        intro h
        simp only [Except.ok.injEq] at h
        subst h
        obtain ⟨hq, hcid, hpid, hup, htot, hval, hav⟩ := hshape
        have hb := checkProductAvailability_ok s f req.productID req.quantity
          c.product hav
        simp only [Order.Validate, Bool.and_eq_true, bne_iff_ne,
          decide_eq_true_eq] at hval
        obtain ⟨⟨⟨⟨hne1, hne2⟩, hqpos⟩, hupos⟩, htol⟩ := hval
        refine ⟨?_, ?_, ?_, ?_, ?_, c.product, hb.1, ?_⟩
        · simpa [responseOf] using htot
        · simp only [responseOf]
          rw [htot]
          simp
        · simpa [responseOf] using hqpos
        · simpa [responseOf, hup] using hupos
        · simpa [responseOf] using hq
        · simpa [responseOf] using hup

/-- C10: `GetAllOrders` always queries with the normalised pagination
arguments, and whenever `GetOrderHistory` reaches its repository query the
arguments it passes satisfy `limit >= 1` and `offset >= 0`: a non-positive
limit is replaced by the default 50 and a negative offset by 0. -/
theorem pagination_args_normalised (s : Store) (f : Faults) (customerID : String)
    (limit offset : Int) :
    ((limit ≤ 0 → (GetAllOrders limit offset).1 = 50) ∧
     (offset < 0 → (GetAllOrders limit offset).2 = 0) ∧
     1 ≤ (GetAllOrders limit offset).1 ∧ 0 ≤ (GetAllOrders limit offset).2) ∧
    (∀ q, GetOrderHistory s f customerID limit offset = .ok q →
      1 ≤ q.2.1 ∧ 0 ≤ q.2.2) := by
  constructor
  · unfold GetAllOrders
    refine ⟨fun h => ?_, fun h => ?_, ?_, ?_⟩ <;> dsimp only <;> split <;> omega
  · intro q hq
    unfold GetOrderHistory at hq
    split at hq
    · simp at hq
    · cases hg : customerGetByID s f customerID <;> rw [hg] at hq
      · simp at hq
      · simp only [Except.ok.injEq] at hq
        subst hq
        constructor <;> dsimp only <;> split <;> omega

/-- Helper: the §8 happy-path scenario evaluated end to end: fresh CUST1
orders 2 units of PROD1 at `tA` with no infrastructure faults; the placement
succeeds, stock drops 5 → 3, and all four writes are applied. -/
theorem run_success :
    PlaceOrder storeA noFaults genA tA CooldownPeriod reqA =
      ({ storeA with
          orders := [orderA],
          products := [("PROD10001", { prodA with quantity := 3, updatedAt := tA })],
          transactions := [txnA],
          cooldowns := [("CUST10001", tA)] },
       .ok respA) := by
  norm_num [PlaceOrder, placeOrderChecks, placeOrderCommit, executeOrderTransaction,
    CanCustomerPlaceOrder, CheckCustomerCooldown, customerGetByID,
    cooldownGetByCustomerID, entityCanPlaceOrder, entityRemainingCooldown,
    CheckProductAvailability, productGetByID, Product.IsAvailable, GetCustomer,
    Order.CalculateTotal, Order.SetOrderDate, Order.Validate,
    Product.ReduceQuantity, Transaction.CreateFromOrder, responseOf, lookupBy,
    setBy, upsertBy, storeA, prodA, genA, tA, reqA, noFaults, orderA, txnA,
    respA, CooldownPeriod]
  simp [Store.mk.injEq, Prod.ext_iff]
  decide

/-- Helper: CUST1 asks for 7 units of PROD1 with only 5 in stock: the
placement is rejected with the available/requested amounts and the store is
untouched. -/
theorem run_insufficient :
    PlaceOrder storeA noFaults genA tA CooldownPeriod reqBig =
      (storeA, .error (.productCheck (.insufficient 5 7))) := by
  norm_num [PlaceOrder, placeOrderChecks, placeOrderCommit, executeOrderTransaction,
    CanCustomerPlaceOrder, CheckCustomerCooldown, customerGetByID,
    cooldownGetByCustomerID, entityCanPlaceOrder, entityRemainingCooldown,
    CheckProductAvailability, productGetByID, Product.IsAvailable, GetCustomer,
    Order.CalculateTotal, Order.SetOrderDate, Order.Validate,
    Product.ReduceQuantity, Transaction.CreateFromOrder, responseOf, lookupBy,
    setBy, upsertBy, storeA, prodA, genA, tA, reqBig, noFaults, CooldownPeriod]
  simp

/-- C1: the commit phase of the layered path is NOT atomic: with CUST1
ordering 2 units of PROD1 and only the transaction-record insert failing, the
caller receives the commit error, yet the freshly created order row and the
reduced product quantity (5 → 3) remain visible afterwards (the transaction
and cooldown writes never happened), against an initial store that had no
orders and quantity 5. -/
theorem commit_failure_leaves_partial_state :
    (PlaceOrder storeA faultTxn genA tA CooldownPeriod reqA).2 =
      .error (.commitFailed .createTransaction) ∧
    (PlaceOrder storeA faultTxn genA tA CooldownPeriod reqA).1.orders = [orderA] ∧
    lookupBy (PlaceOrder storeA faultTxn genA tA CooldownPeriod reqA).1.products
      "PROD10001" = some { prodA with quantity := 3, updatedAt := tA } ∧
    (PlaceOrder storeA faultTxn genA tA CooldownPeriod reqA).1.transactions = [] ∧
    (PlaceOrder storeA faultTxn genA tA CooldownPeriod reqA).1.cooldowns = [] ∧
    storeA.orders = [] ∧ lookupBy storeA.products "PROD10001" = some prodA := by
  norm_num [PlaceOrder, placeOrderChecks, placeOrderCommit, executeOrderTransaction,
    CanCustomerPlaceOrder, CheckCustomerCooldown, customerGetByID,
    cooldownGetByCustomerID, entityCanPlaceOrder, entityRemainingCooldown,
    CheckProductAvailability, productGetByID, Product.IsAvailable, GetCustomer,
    Order.CalculateTotal, Order.SetOrderDate, Order.Validate,
    Product.ReduceQuantity, Transaction.CreateFromOrder, responseOf, lookupBy,
    setBy, upsertBy, storeA, prodA, genA, tA, reqA, faultTxn, orderA,
    CooldownPeriod]
  simp

/-- C2: two requests by the SAME customer with fresh cooldown state, racing
so that both pass the read-only check phase before either commits, BOTH
succeed — while the same two requests run one after the other have the second
rejected with `CooldownActive`. "Exactly 1 succeeds and N-1 receive
CooldownActive" fails under concurrency. -/
theorem concurrent_requests_defeat_cooldown :
    (placeOrderRace storeA noFaults genA genB tA CooldownPeriod reqA1 reqA1).2.1 =
      .ok respR1 ∧
    (placeOrderRace storeA noFaults genA genB tA CooldownPeriod reqA1 reqA1).2.2 =
      .ok respR2 ∧
    (PlaceOrder (PlaceOrder storeA noFaults genA tA CooldownPeriod reqA1).1
      noFaults genB tA CooldownPeriod reqA1).2 =
      .error (.cooldownActive CooldownPeriod) := by
  norm_num [PlaceOrder, placeOrderRace, placeOrderChecks, placeOrderCommit,
    executeOrderTransaction, CanCustomerPlaceOrder, CheckCustomerCooldown,
    customerGetByID, cooldownGetByCustomerID, entityCanPlaceOrder,
    entityRemainingCooldown, CheckProductAvailability, productGetByID,
    Product.IsAvailable, GetCustomer, Order.CalculateTotal, Order.SetOrderDate,
    Order.Validate, Product.ReduceQuantity, Transaction.CreateFromOrder,
    responseOf, lookupBy, setBy, upsertBy, storeA, prodA, genA, genB, tA,
    reqA1, noFaults, respR1, respR2, CooldownPeriod]
  simp

/-- C3: the commit phase writes the application-computed quantity with an
unconditional `Save` instead of issuing the storage layer's conditional
decrement: two racing 4-unit orders against a 5-unit stock BOTH succeed (8
units sold), the final stored quantity is 1, and the storage layer's own
conditional `ReduceQuantity`, run at the moment of the second write, would
have rejected it with insufficient(available 1, requested 4). -/
theorem unconditional_product_write_oversells :
    (placeOrderRace storeA noFaults genA genB tA CooldownPeriod reqB1 reqB2).2.1 =
      .ok respB1 ∧
    (placeOrderRace storeA noFaults genA genB tA CooldownPeriod reqB1 reqB2).2.2 =
      .ok respB2 ∧
    lookupBy (placeOrderRace storeA noFaults genA genB tA CooldownPeriod reqB1
      reqB2).1.products "PROD10001" =
      some { prodA with quantity := 1, updatedAt := tA } ∧
    (repoReduceQuantity (PlaceOrder storeA noFaults genA tA CooldownPeriod reqB1).1
      "PROD10001" 4).2 = .error (.insufficient 1 4) := by
  norm_num [PlaceOrder, placeOrderRace, placeOrderChecks, placeOrderCommit,
    executeOrderTransaction, CanCustomerPlaceOrder, CheckCustomerCooldown,
    customerGetByID, cooldownGetByCustomerID, entityCanPlaceOrder,
    entityRemainingCooldown, CheckProductAvailability, productGetByID,
    Product.IsAvailable, GetCustomer, Order.CalculateTotal, Order.SetOrderDate,
    Order.Validate, Product.ReduceQuantity, Transaction.CreateFromOrder,
    responseOf, lookupBy, setBy, upsertBy, repoReduceQuantity, storeA, prodA,
    genA, genB, tA, reqB1, reqB2, noFaults, respB1, respB2, CooldownPeriod]
  simp

/-- C6 counterexample: with CUST1 still inside the cooldown window (last
order at `tA`, request at `tA`), a storage failure while reading the cooldown
record is NOT reported to the caller: the very request that the healthy store
rejects with `CooldownActive` is accepted when the cooldown read fails — the
read error is swallowed and treated as eligibility to order. -/
theorem cooldown_read_failure_treated_as_eligibility :
    (PlaceOrder storeCD noFaults genA tA CooldownPeriod reqA).2 =
      .error (.cooldownActive CooldownPeriod) ∧
    (PlaceOrder storeCD faultCooldownRead genA tA CooldownPeriod reqA).2 =
      .ok respA := by
  norm_num [PlaceOrder, placeOrderChecks, placeOrderCommit, executeOrderTransaction,
    CanCustomerPlaceOrder, CheckCustomerCooldown, customerGetByID,
    cooldownGetByCustomerID, entityCanPlaceOrder, entityRemainingCooldown,
    CheckProductAvailability, productGetByID, Product.IsAvailable, GetCustomer,
    Order.CalculateTotal, Order.SetOrderDate, Order.Validate,
    Product.ReduceQuantity, Transaction.CreateFromOrder, responseOf, lookupBy,
    setBy, upsertBy, storeA, storeCD, prodA, genA, tA, reqA, noFaults,
    faultCooldownRead, respA, CooldownPeriod]
  simp

/-- C6 (amended): failures of the customer lookup (in the cooldown check and
in customer resolution), of the product lookup, and of every commit sub-step
are propagated to the workflow's caller wrapped with the failing step's
context; the one exception is a failure while READING the cooldown record,
which `CheckCustomerCooldown` swallows and maps to a fresh zero cooldown
record — i.e. treats as eligibility to order. -/
theorem collaborator_errors_propagate_except_cooldown_read (s : Store)
    (f : Faults) (g : Gen) (now period : Int) (req : PlaceOrderRequest)
    (cid pid : String) (q : Int) (order : Order) (product : Product) :
    (req.customerID ≠ "" → f.customerReadFails = true →
      (PlaceOrder s f g now period req).2 = .error (.cooldownCheck .readFault)) ∧
    (cid ≠ "" → f.customerReadFails = false →
      (lookupBy s.customers cid).isSome = true → f.cooldownReadFails = true →
      CheckCustomerCooldown s f cid = .ok ⟨cid, 0⟩) ∧
    (f.productReadFails = true →
      CheckProductAvailability s f pid q = .error (.productCheck .readFault)) ∧
    (cid ≠ "" → f.customerReadFails = true →
      GetCustomer s f cid = .error (.getCustomer .readFault)) ∧
    (product.IsAvailable q = true →
      (f.orderCreateFails = true →
        (executeOrderTransaction s f g order product q now).2 =
          .error (.commitFailed .createOrder)) ∧
      (f.orderCreateFails = false → f.productUpdateFails = true →
        (executeOrderTransaction s f g order product q now).2 =
          .error (.commitFailed .updateProduct)) ∧
      (f.orderCreateFails = false → f.productUpdateFails = false →
        f.transactionCreateFails = true →
        (executeOrderTransaction s f g order product q now).2 =
          .error (.commitFailed .createTransaction)) ∧
      (order.customerID ≠ "" → f.orderCreateFails = false →
        f.productUpdateFails = false → f.transactionCreateFails = false →
        f.cooldownUpsertFails = true →
        (executeOrderTransaction s f g order product q now).2 =
          .error (.commitFailed .updateCooldown))) := by
  refine ⟨fun hne hf => ?_, fun hne hcf hsome hcd => ?_, fun hf => ?_,
    fun hne hf => ?_, fun hav => ⟨fun h1 => ?_, fun h1 h2 => ?_,
    fun h1 h2 h3 => ?_, fun hoc h1 h2 h3 h4 => ?_⟩⟩
  · simp [PlaceOrder, placeOrderChecks, CanCustomerPlaceOrder,
      CheckCustomerCooldown, customerGetByID, hne, hf]
  · obtain ⟨name, hname⟩ := Option.isSome_iff_exists.mp hsome
    simp [CheckCustomerCooldown, customerGetByID, cooldownGetByCustomerID,
      hne, hcf, hcd, hname]
  · simp [CheckProductAvailability, productGetByID, hf]
  · simp [GetCustomer, customerGetByID, hne, hf]
  · simp [executeOrderTransaction, Product.ReduceQuantity, hav, h1]
  · simp [executeOrderTransaction, Product.ReduceQuantity, hav, h1, h2]
  · simp [executeOrderTransaction, Product.ReduceQuantity, hav, h1, h2, h3]
  · simp [executeOrderTransaction, Product.ReduceQuantity, hav, hoc, h1, h2,
      h3, h4]

/-- Witness for `collaborator_errors_propagate_except_cooldown_read`: a
failing customer read is reported end to end, and a failing cooldown read for
an in-cooldown customer yields the fresh zero record. -/
theorem collaborator_errors_propagate_witness :
    (PlaceOrder storeA faultCustomerRead genA tA CooldownPeriod reqA).2 =
      .error (.cooldownCheck .readFault) ∧
    CheckCustomerCooldown storeCD faultCooldownRead "CUST10001" =
      .ok ⟨"CUST10001", 0⟩ := by
  constructor
  · exact (collaborator_errors_propagate_except_cooldown_read storeA
      faultCustomerRead genA tA CooldownPeriod reqA "CUST10001" "PROD10001" 2
      orderA prodA).1 (by decide) (by decide)
  · exact (collaborator_errors_propagate_except_cooldown_read storeCD
      faultCooldownRead genA tA CooldownPeriod reqA "CUST10001" "PROD10001" 2
      orderA prodA).2.1 (by decide) (by decide) (by decide) (by decide)

/-- Witness for `placeOrder_cooldown_written_only_on_success`: the happy-path
run ends with CUST1 upserted at `tA`; the insufficient-stock rejection leaves
the cooldown table untouched. -/
theorem placeOrder_cooldown_written_only_on_success_witness :
    (PlaceOrder storeA noFaults genA tA CooldownPeriod reqA).1.cooldowns =
      upsertBy storeA.cooldowns reqA.customerID tA ∧
    (PlaceOrder storeA noFaults genA tA CooldownPeriod reqBig).1.cooldowns =
      storeA.cooldowns := by
  constructor
  · exact (placeOrder_cooldown_written_only_on_success storeA noFaults genA tA
      CooldownPeriod reqA).2 respA (by rw [run_success])
  · exact (placeOrder_cooldown_written_only_on_success storeA noFaults genA tA
      CooldownPeriod reqBig).1 (.productCheck (.insufficient 5 7))
      (by rw [run_insufficient])

/-- Witness for `placeOrder_totalAmount_invariant` at the happy-path run:
the returned response has total 20 = 2 * 10 with positive parts. -/
theorem placeOrder_totalAmount_invariant_witness :
    respA.totalAmount = (respA.quantity : ℚ) * respA.unitPrice ∧
    0 < respA.quantity ∧ 0 < respA.unitPrice := by
  have h := placeOrder_totalAmount_invariant storeA noFaults genA tA
    CooldownPeriod reqA respA (by rw [run_success])
  exact ⟨h.1, h.2.2.1, h.2.2.2.1⟩

/-- Witness for `placeOrder_preCommit_rejection_no_writes` at the
insufficient-stock rejection: the store is exactly the initial one. -/
theorem placeOrder_preCommit_rejection_no_writes_witness :
    (PlaceOrder storeA noFaults genA tA CooldownPeriod reqBig).1 = storeA :=
  placeOrder_preCommit_rejection_no_writes storeA noFaults genA tA
    CooldownPeriod reqBig (.productCheck (.insufficient 5 7))
    (by rw [run_insufficient]) (by decide)

/-- Witness for `pagination_args_normalised` at limit -5, offset -3. -/
theorem pagination_args_normalised_witness :
    1 ≤ (GetAllOrders (-5) (-3)).1 ∧ 0 ≤ (GetAllOrders (-5) (-3)).2 ∧
    (1 : Int) ≤ 50 ∧ (0 : Int) ≤ 0 := by
  have h := pagination_args_normalised storeA noFaults "CUST10001" (-5) (-3)
  have h2 := h.2 ("CUST10001", 50, 0)
    (by simp [GetOrderHistory, customerGetByID, lookupBy, storeA, noFaults])
  exact ⟨h.1.2.2.1, h.1.2.2.2, h2.1, h2.2⟩

end Day5
